import Mathlib

/-!
Shallow embedding of `src/kubernetes/resource_kubernetes_resource_priority_class.go`
(the PriorityClass resource controller of the terraform-provider-kubernetes
repository) together with the pieces of its environment the controller
observes: the `schema.ResourceData` flat model (dynamic attribute values and
Go type assertions on them), the Kubernetes object store (modelled as the
responses the store returns to each call), and the bounded retry helper used
for convergence polling.

The controller functions keep their Go names.  Each one returns the Go error
result (as `Except Err Unit`), the final state of the flat model `d` (the
Go code mutates `d` via `SetId`/`Set`), and the ordered trace of object-store
calls it performed.
-/

/-- A dynamic attribute value as held by `schema.ResourceData` (a Go
`interface \x7b\x7d`).  The embedding distinguishes the Go types `int` and
`int32`, because the source performs an `.(int32)` type assertion on a
schema attribute of type `TypeInt` (which the terraform schema layer stores
as `int`). -/
inductive DVal where
  | vInt (n : Int)
  | vInt32 (n : Int)
  | vString (s : String)
  | vBool (b : Bool)
deriving DecidableEq, Repr

/-- Whether the dynamic value is a Go `int32`. -/
def DVal.isInt32 : DVal → Bool
  | .vInt32 _ => true
  | _ => false

/-- Whether the dynamic value is a Go `string`. -/
def DVal.isString : DVal → Bool
  | .vString _ => true
  | _ => false

/-- An error returned by the object store (the Kubernetes client).
`statusError` models a `k8s.io/apimachinery` `*errors.StatusError` carrying
an HTTP status code; `other` models every other error value. -/
inductive StoreErr where
  | statusError (code : Nat)
  | other (msg : String)
deriving DecidableEq, Repr

/-- The error result of a controller function.  `typeAssertion` models the
run-time failure of an unchecked Go type assertion (an interface-conversion
run-time error naming the asserted type); `storeErr` wraps an object-store
error; `convergence` models the mismatch error built at lines 82-83 of the
source (carrying the created and the submitted `value`); `timeout` models
the retry helper expiring with no attempt recorded. -/
inductive Err where
  | typeAssertion (want : String)
  | storeErr (e : StoreErr)
  | convergence (createdValue submittedValue : Int)
  | timeout
deriving DecidableEq, Repr

/-- Go type assertion `.(int32)` on a dynamic value (source lines 55 and 143).
A mismatch is a run-time interface-conversion failure. -/
def asInt32 : DVal → Except Err Int
  | .vInt32 n => .ok n
  | _ => .error (.typeAssertion "int32")

/-- Go type assertion `.(string)` on a dynamic value (source lines 56, 151
and 159). -/
def asString : DVal → Except Err String
  | .vString s => .ok s
  | _ => .error (.typeAssertion "string")

/-- Go type assertion `.(bool)` on a dynamic value (source line 57). -/
def asBool : DVal → Except Err Bool
  | .vBool b => .ok b
  | _ => .error (.typeAssertion "bool")

/-- The identity block of the remote object (`meta_v1.ObjectMeta`), with the
fields this resource reads: name, generate-name, labels, annotations and the
store-assigned resource version and UID.  PriorityClass is cluster-scoped,
so there is no namespace. -/
structure ObjectMeta where
  name : String
  generateName : String
  labels : List (String × String)
  annotations : List (String × String)
  resourceVersion : String
  uid : String
deriving DecidableEq, Repr

/-- The metadata block of the flat model (the `metadata.0.*` attributes). -/
structure FlatMetadata where
  name : String
  generateName : String
  labels : List (String × String)
  annotations : List (String × String)
  resourceVersion : String
  uid : String
deriving DecidableEq, Repr

/-- The remote object (`api.PriorityClass` of `k8s.io/api/scheduling/v1beta1`).
`value` is an `int32` in Go; its numeric value is embedded as `Int`. -/
structure PriorityClass where
  objectMeta : ObjectMeta
  description : String
  globalDefault : Bool
  value : Int
deriving DecidableEq, Repr

/-- The flat model: the `schema.ResourceData` of this resource, holding the
persisted id and the four schema attributes.  The three scalar attributes
hold dynamic values, because the source extracts them with unchecked Go type
assertions. -/
structure FlatModel where
  id : String
  metadata : FlatMetadata
  value : DVal
  description : DVal
  global_default : DVal
deriving DecidableEq, Repr

/-- A JSON-patch operation as built by the update path (`ReplaceOperation`
and the operations of the shared metadata patch routine). -/
inductive PatchOp where
  | replace (path : String) (value : DVal)
  | add (path : String) (value : DVal)
  | remove (path : String)
deriving DecidableEq, Repr

/-- One call made against the object store, recorded in order. -/
inductive StoreCall where
  | createCall (draft : PriorityClass)
  | getCall (name : String)
  | patchCall (name : String) (doc : List PatchOp)
  | deleteCall (name : String)
deriving DecidableEq, Repr

/-- Modelled from the spec: `buildId` (shared helper, not under `src/`)
derives the Local ID from the identity block; for a cluster-scoped kind such
as PriorityClass it is the name alone. -/
def buildId (m : ObjectMeta) : String := m.name

/-- Modelled from the spec: `expandMetadata` (the shared metadata sub-mapper
of §4.1, not under `src/`) builds the identity block of the remote object
draft from the flat metadata; store-assigned fields start empty. -/
def expandMetadata (m : FlatMetadata) : ObjectMeta :=
  { name := m.name, generateName := m.generateName, labels := m.labels,
    annotations := m.annotations, resourceVersion := "", uid := "" }

/-- Modelled from the spec: `flattenMetadata` (the shared metadata sub-mapper
of §4.1, not under `src/`) rebuilds the flat metadata block from the remote
identity block. -/
def flattenMetadata (o : ObjectMeta) : FlatMetadata :=
  { name := o.name, generateName := o.generateName, labels := o.labels,
    annotations := o.annotations, resourceVersion := o.resourceVersion,
    uid := o.uid }

/-- First-match association-list lookup, the map access used by the
metadata diff. -/
def lookupKV : List (String × String) → String → Option String
  | [], _ => none
  | (k, v) :: t, key => if k = key then some v else lookupKV t key

/-- Operations for keys of the old map that changed or disappeared. -/
def diffOld (base : String) (old new : List (String × String)) : List PatchOp :=
  old.filterMap fun kv =>
    match lookupKV new kv.1, lookupKV old kv.1 with
    | some v2, some v1 =>
        if v2 = v1 then none
        else some (PatchOp.replace (base ++ kv.1) (DVal.vString v2))
    | some _, none => none
    | none, _ => some (PatchOp.remove (base ++ kv.1))

/-- Operations for keys present only in the new map. -/
def diffNew (base : String) (old new : List (String × String)) : List PatchOp :=
  new.filterMap fun kv =>
    match lookupKV old kv.1 with
    | some _ => none
    | none => some (PatchOp.add (base ++ kv.1) (DVal.vString kv.2))

/-- Key-wise diff of one string map: one operation per changed, removed or
added key. -/
def diffMapOps (base : String) (old new : List (String × String)) : List PatchOp :=
  diffOld base old new ++ diffNew base old new

/-- Modelled from the spec: `patchMetadata` (the shared metadata patch
routine of §4.2, not under `src/`) emits one operation per changed label or
annotation key rather than replacing the whole map. -/
def patchMetadata (old new : FlatMetadata) : List PatchOp :=
  diffMapOps "/metadata/labels/" old.labels new.labels ++
    diffMapOps "/metadata/annotations/" old.annotations new.annotations

/-- The expand step of Create (source lines 54-64): extract the four
attributes with the source's type assertions and build the draft object.
The `value` attribute is asserted to `int32` (line 55). -/
def expandPriorityClass (d : FlatModel) : Except Err PriorityClass :=
  match asInt32 d.value with
  | .error e => .error e
  | .ok value =>
    match asString d.description with
    | .error e => .error e
    | .ok description =>
      match asBool d.global_default with
      | .error e => .error e
      | .ok globalDefault =>
        .ok { objectMeta := expandMetadata d.metadata,
              description := description,
              globalDefault := globalDefault,
              value := value }

/-- Outcome of one evaluation of the retry callback passed to
`resource.Retry`. -/
inductive RetryOutcome where
  | success
  | retryable (e : Err)
  | nonRetryable (e : Err)
deriving DecidableEq, Repr

/-- The bounded retry helper (`resource.Retry` of the terraform helper
library): evaluate the callback on successive poll indices until it
succeeds, fails non-retryably, or the poll budget (the one-minute deadline
of source line 74, counted in poll intervals) is exhausted, in which case
the last retryable error is returned.  The second component counts how many
times the callback was evaluated. -/
def retryLoop (f : Nat → RetryOutcome) : Nat → Nat → Err → Except Err Unit × Nat
  | 0, _, last => (.error last, 0)
  | fuel + 1, i, _ =>
    match f i with
    | .success => (.ok (), 1)
    | .nonRetryable e => (.error e, 1)
    | .retryable e =>
      let r := retryLoop f fuel (i + 1) e
      (r.1, r.2 + 1)

/-- The retry callback of Create (source lines 75-84): Get the object; a
store error is non-retryable; a value equal to the submitted one is success;
a mismatch is a retryable convergence error carrying the created and the
submitted value. -/
def createPollOutcome (reads : Nat → Except StoreErr PriorityClass)
    (submitted : Int) (i : Nat) : RetryOutcome :=
  match reads i with
  | .error e => .nonRetryable (.storeErr e)
  | .ok created =>
    if created.value = submitted then .success
    else .retryable (.convergence created.value submitted)

/-- The `d.GetOk("metadata.0.generate_name")` access of source line 108:
returns the attribute only when it is set to a non-zero (non-empty) value. -/
def getOkGenerateName (d : FlatModel) : Option String :=
  if d.metadata.generateName = "" then none else some d.metadata.generateName

/-- `resourceKubernetesPriorityClassRead` (source lines 93-134).  `getResp`
is what the store returns for the Get.  On success the known-omission
correction for `generateName` is applied (lines 107-111) before the flat
model is updated field by field (lines 113-131). -/
def resourceKubernetesPriorityClassRead (getResp : Except StoreErr PriorityClass)
    (d : FlatModel) : Except Err Unit × FlatModel × List StoreCall :=
  let name := d.id
  match getResp with
  | .error e => (.error (.storeErr e), d, [.getCall name])
  | .ok pc =>
    let pc :=
      if pc.objectMeta.generateName = "" then
        match getOkGenerateName d with
        | some v => { pc with objectMeta := { pc.objectMeta with generateName := v } }
        | none => pc
      else pc
    let d := { d with metadata := flattenMetadata pc.objectMeta }
    let d := { d with value := DVal.vInt pc.value }
    let d := { d with description := DVal.vString pc.description }
    let d := { d with global_default := DVal.vBool pc.globalDefault }
    (.ok (), d, [.getCall name])

/-- `resourceKubernetesPriorityClassCreate` (source lines 51-91).
`createResp` is the store's response to the Create call, `pollResp` the
store's response to the i-th Get of the convergence poll, `fuel` the poll
budget of the one-minute `resource.Retry` deadline, and `readResp` the
store's response to the Get of the final Read.  The Local ID is set (line
72) right after a successful store Create and before polling begins. -/
def resourceKubernetesPriorityClassCreate (createResp : Except StoreErr PriorityClass)
    (pollResp : Nat → Except StoreErr PriorityClass) (fuel : Nat)
    (readResp : Except StoreErr PriorityClass) (d : FlatModel) :
    Except Err Unit × FlatModel × List StoreCall :=
  match expandPriorityClass d with
  | .error e => (.error e, d, [])
  | .ok pc =>
    match createResp with
    | .error e => (.error (.storeErr e), d, [.createCall pc])
    | .ok out =>
      let d1 := { d with id := buildId out.objectMeta }
      let r := retryLoop (createPollOutcome pollResp pc.value) fuel 0 Err.timeout
      let pollTrace := List.replicate r.2 (StoreCall.getCall out.objectMeta.name)
      match r.1 with
      | .error e => (.error e, d1, .createCall pc :: pollTrace)
      | .ok _ =>
        let res := resourceKubernetesPriorityClassRead readResp d1
        (res.1, res.2.1, .createCall pc :: (pollTrace ++ res.2.2))

/-- The `value` block of Update (source lines 142-148): when the attribute
changed, extract it with the `.(int32)` assertion of line 143 and emit one
replace operation at `/value`. -/
def valueOps (old d : FlatModel) : Except Err (List PatchOp) :=
  if old.value = d.value then .ok []
  else
    match asInt32 d.value with
    | .error e => .error e
    | .ok n => .ok [PatchOp.replace "/value" (DVal.vInt32 n)]

/-- The `description` block of Update (source lines 150-156). -/
def descriptionOps (old d : FlatModel) : Except Err (List PatchOp) :=
  if old.description = d.description then .ok []
  else
    match asString d.description with
    | .error e => .error e
    | .ok s => .ok [PatchOp.replace "/description" (DVal.vString s)]

/-- The `global_default` block of Update (source lines 158-164): when the
attribute changed, it is extracted with the `.(string)` assertion of line
159 although the schema type is `TypeBool`. -/
def globalDefaultOps (old d : FlatModel) : Except Err (List PatchOp) :=
  if old.global_default = d.global_default then .ok []
  else
    match asString d.global_default with
    | .error e => .error e
    | .ok s => .ok [PatchOp.replace "/globalDefault" (DVal.vString s)]

/-- The patch document built by Update (source lines 140-164): the metadata
operations followed by the three per-field blocks, in source order.  A
failed type assertion aborts the whole build. -/
def buildPriorityClassPatchOps (old d : FlatModel) : Except Err (List PatchOp) :=
  match valueOps old d with
  | .error e => .error e
  | .ok vo =>
    match descriptionOps old d with
    | .error e => .error e
    | .ok dops =>
      match globalDefaultOps old d with
      | .error e => .error e
      | .ok go => .ok (patchMetadata old.metadata d.metadata ++ vo ++ dops ++ go)

/-- `resourceKubernetesPriorityClassUpdate` (source lines 136-179).  `old`
is the prior flat-model snapshot and `d` the current one (`HasChange` is
inequality of the two snapshots; `Get` reads the current one).  The store
Patch call is made unconditionally with whatever operations were built;
on success the Local ID is recomputed (line 176) and a Read follows. -/
def resourceKubernetesPriorityClassUpdate (patchResp : Except StoreErr PriorityClass)
    (readResp : Except StoreErr PriorityClass) (old d : FlatModel) :
    Except Err Unit × FlatModel × List StoreCall :=
  let name := d.id
  match buildPriorityClassPatchOps old d with
  | .error e => (.error e, d, [])
  | .ok ops =>
    match patchResp with
    | .error e => (.error (.storeErr e), d, [.patchCall name ops])
    | .ok out =>
      let d1 := { d with id := buildId out.objectMeta }
      let res := resourceKubernetesPriorityClassRead readResp d1
      (res.1, res.2.1, .patchCall name ops :: res.2.2)

/-- `resourceKubernetesPriorityClassDelete` (source lines 181-195): call the
store Delete; any store error, a not-found status error included, is
returned unchanged (lines 187-189); only on success is the Local ID
cleared (line 193). -/
def resourceKubernetesPriorityClassDelete (deleteResp : Option StoreErr)
    (d : FlatModel) : Except Err Unit × FlatModel × List StoreCall :=
  let name := d.id
  match deleteResp with
  | some e => (.error (.storeErr e), d, [.deleteCall name])
  | none => (.ok (), { d with id := "" }, [.deleteCall name])

/-- Whether a store error is a `*errors.StatusError` with code 404 (the
check of source line 204). -/
def isNotFound : StoreErr → Bool
  | .statusError code => code == 404
  | .other _ => false

/-- `resourceKubernetesPriorityClassExists` (source lines 197-210): a Get
failing with a 404 status error yields `(false, nil)`; any other error
falls through to `return true, err`; success yields `(true, nil)`. -/
def resourceKubernetesPriorityClassExists (getResp : Except StoreErr PriorityClass)
    (d : FlatModel) : (Bool × Option StoreErr) × List StoreCall :=
  let name := d.id
  match getResp with
  | .ok _ => ((true, none), [.getCall name])
  | .error e =>
    if isNotFound e then ((false, none), [.getCall name])
    else ((true, some e), [.getCall name])

/-! ## Helper lemmas -/

/-- Looking up the key of a list member succeeds. -/
theorem lookupKV_mem {l : List (String × String)} {kv : String × String}
    (h : kv ∈ l) : ∃ w, lookupKV l kv.1 = some w := by
  induction l with
  | nil => cases h
  | cons hd tl ih =>
    obtain ⟨k, v⟩ := hd
    by_cases hk : k = kv.1
    · exact ⟨v, by simp [lookupKV, hk]⟩
    · rcases List.mem_cons.mp h with h1 | h1
      · rw [h1] at hk; exact absurd rfl hk
      · rcases ih h1 with ⟨w, hw⟩
        exact ⟨w, by simp [lookupKV, hk, hw]⟩

/-- Diffing a map against itself emits no operation for old keys. -/
theorem diffOld_self (base : String) (l : List (String × String)) :
    diffOld base l l = [] := by
  rw [diffOld, List.filterMap_eq_nil_iff]
  intro kv hkv
  rcases lookupKV_mem hkv with ⟨w, hw⟩
  simp [hw]

/-- Diffing a map against itself emits no operation for new keys. -/
theorem diffNew_self (base : String) (l : List (String × String)) :
    diffNew base l l = [] := by
  rw [diffNew, List.filterMap_eq_nil_iff]
  intro kv hkv
  rcases lookupKV_mem hkv with ⟨w, hw⟩
  simp [hw]

/-- Diffing a map against itself is empty. -/
theorem diffMapOps_self (base : String) (l : List (String × String)) :
    diffMapOps base l l = [] := by
  simp [diffMapOps, diffOld_self, diffNew_self]

/-- The metadata patch routine emits nothing for identical metadata. -/
theorem patchMetadata_self (m : FlatMetadata) : patchMetadata m m = [] := by
  simp [patchMetadata, diffMapOps_self]

/-- Every error of the int32 assertion is the int32 interface-conversion
failure. -/
theorem asInt32_error {v : DVal} {e : Err} (h : asInt32 v = .error e) :
    e = .typeAssertion "int32" := by
  cases v <;> simp [asInt32] at h <;> exact h.symm

/-- Every error of the string assertion is the string interface-conversion
failure. -/
theorem asString_error {v : DVal} {e : Err} (h : asString v = .error e) :
    e = .typeAssertion "string" := by
  cases v <;> simp [asString] at h <;> exact h.symm

/-- Every error of the patch-document build is a failed type assertion. -/
theorem buildPriorityClassPatchOps_error {old d : FlatModel} {e : Err}
    (h : buildPriorityClassPatchOps old d = .error e) :
    ∃ s, e = .typeAssertion s := by
  rw [buildPriorityClassPatchOps] at h
  cases hv : valueOps old d with
  | error ev =>
    rw [hv] at h
    cases h
    rw [valueOps] at hv
    split at hv
    · cases hv
    · cases ha : asInt32 d.value with
      | error e2 => rw [ha] at hv; cases hv; exact ⟨"int32", asInt32_error ha⟩
      | ok n => rw [ha] at hv; cases hv
  | ok vo =>
    rw [hv] at h
    cases hd : descriptionOps old d with
    | error ed =>
      rw [hd] at h
      cases h
      rw [descriptionOps] at hd
      split at hd
      · cases hd
      · cases ha : asString d.description with
        | error e2 => rw [ha] at hd; cases hd; exact ⟨"string", asString_error ha⟩
        | ok s => rw [ha] at hd; cases hd
    | ok dops =>
      rw [hd] at h
      cases hg : globalDefaultOps old d with
      | error eg =>
        rw [hg] at h
        cases h
        rw [globalDefaultOps] at hg
        split at hg
        · cases hg
        · cases ha : asString d.global_default with
          | error e2 => rw [ha] at hg; cases hg; exact ⟨"string", asString_error ha⟩
          | ok s => rw [ha] at hg; cases hg
      | ok go => rw [hg] at h; cases h

/-- Read never touches the Local ID. -/
theorem read_preserves_id (getResp : Except StoreErr PriorityClass)
    (d : FlatModel) :
    ((resourceKubernetesPriorityClassRead getResp d).2.1).id = d.id := by
  cases getResp with
  | error e => rfl
  | ok pc => rfl

/-- Every error of the bool assertion is the bool interface-conversion
failure. -/
theorem asBool_error {v : DVal} {e : Err} (h : asBool v = .error e) :
    e = .typeAssertion "bool" := by
  cases v <;> simp [asBool] at h <;> exact h.symm

/-- Every error of the expand step is a failed type assertion. -/
theorem expandPriorityClass_error {d : FlatModel} {e : Err}
    (h : expandPriorityClass d = .error e) : ∃ s, e = .typeAssertion s := by
  rw [expandPriorityClass] at h
  cases hv : asInt32 d.value with
  | error ev => rw [hv] at h; cases h; exact ⟨"int32", asInt32_error hv⟩
  | ok n =>
    rw [hv] at h
    cases hd : asString d.description with
    | error ed => rw [hd] at h; cases h; exact ⟨"string", asString_error hd⟩
    | ok s =>
      rw [hd] at h
      cases hg : asBool d.global_default with
      | error eg => rw [hg] at h; cases h; exact ⟨"bool", asBool_error hg⟩
      | ok b => rw [hg] at h; cases h

/-! ## Concrete fixtures -/

/-- The metadata block of the spec's end-to-end example (name `high`). -/
def mdHigh : FlatMetadata :=
  { name := "high", generateName := "", labels := [], annotations := [],
    resourceVersion := "", uid := "" }

/-- The remote object of the spec's end-to-end example, as returned by the
store (resource version assigned). -/
def pcHigh : PriorityClass :=
  { objectMeta := { name := "high", generateName := "", labels := [],
                    annotations := [], resourceVersion := "1", uid := "u1" },
    description := "", globalDefault := false, value := 1000000 }

/-- The flat model of the spec's end-to-end example, with the attribute
representations the terraform schema layer produces: `TypeInt` attributes
are stored as Go `int`, `TypeString` as `string`, `TypeBool` as `bool`. -/
def mHigh : FlatModel :=
  { id := "high", metadata := mdHigh, value := .vInt 1000000,
    description := .vString "", global_default := .vBool false }

/-! ## Claims -/

/-- Claim C1, counterexample: with prior and current flat models identical
(the spec's example model), Update builds an empty patch document but still
performs two store calls — the Patch with the empty document and the
subsequent Read — rather than zero. -/
theorem priorityClass_update_noop_counterexample :
    buildPriorityClassPatchOps mHigh mHigh = .ok [] ∧
    (resourceKubernetesPriorityClassUpdate (.ok pcHigh) (.ok pcHigh) mHigh mHigh).2.2 =
      [StoreCall.patchCall "high" [], StoreCall.getCall "high"] := by
  constructor <;> rfl

/-- Claim C1, amended: for every pair of identical prior and current flat
models, Update builds an empty patch document, yet still invokes store.Patch
with that empty document and, when the Patch succeeds, the subsequent Read;
no store call is skipped. -/
theorem priorityClass_update_noop_still_calls_store
    (patchResp readResp : Except StoreErr PriorityClass) (m : FlatModel) :
    buildPriorityClassPatchOps m m = .ok [] ∧
    (resourceKubernetesPriorityClassUpdate patchResp readResp m m).2.2 =
      StoreCall.patchCall m.id [] ::
        (match patchResp with
         | .ok out => [StoreCall.getCall (buildId out.objectMeta)]
         | .error _ => []) := by
  have hb : buildPriorityClassPatchOps m m = .ok [] := by
    simp [buildPriorityClassPatchOps, valueOps, descriptionOps,
      globalDefaultOps, patchMetadata_self]
  refine ⟨hb, ?_⟩
  simp only [resourceKubernetesPriorityClassUpdate]
  rw [hb]
  cases patchResp with
  | error e => rfl
  | ok out => cases readResp <;> rfl

/-- Claim C2, counterexample: deleting a Local ID absent from the store
(store.Delete reports a 404 not-found status error) returns that error, not
success, and leaves the Local ID set. -/
theorem priorityClass_delete_notfound_counterexample :
    (resourceKubernetesPriorityClassDelete (some (StoreErr.statusError 404)) mHigh).1 =
      .error (.storeErr (.statusError 404)) ∧
    ((resourceKubernetesPriorityClassDelete (some (StoreErr.statusError 404)) mHigh).2.1).id =
      "high" := by
  constructor <;> rfl

/-- Claim C2, amended: Delete propagates every store error unchanged — a
not-found error included — and only on a successful store Delete does it
return success and clear the Local ID. -/
theorem priorityClass_delete_behavior (deleteResp : Option StoreErr) (d : FlatModel) :
    (deleteResp = none →
        resourceKubernetesPriorityClassDelete deleteResp d =
          (.ok (), { d with id := "" }, [StoreCall.deleteCall d.id])) ∧
    (∀ e, deleteResp = some e →
        resourceKubernetesPriorityClassDelete deleteResp d =
          (.error (.storeErr e), d, [StoreCall.deleteCall d.id])) := by
  constructor
  · rintro rfl; rfl
  · rintro e rfl; rfl

/-- Claim C2, witness for the amended theorem at concrete inputs: a
successful Delete clears the Local ID, and a failed one propagates the
store error with the Local ID untouched. -/
theorem priorityClass_delete_behavior_witness :
    resourceKubernetesPriorityClassDelete none mHigh =
      (.ok (), { mHigh with id := "" }, [StoreCall.deleteCall "high"]) ∧
    resourceKubernetesPriorityClassDelete (some (StoreErr.other "boom")) mHigh =
      (.error (.storeErr (.other "boom")), mHigh, [StoreCall.deleteCall "high"]) :=
  ⟨(priorityClass_delete_behavior none mHigh).1 rfl,
   (priorityClass_delete_behavior (some (StoreErr.other "boom")) mHigh).2
     (StoreErr.other "boom") rfl⟩

/-- Claim C3, confirmed: whenever the flat model fails to map to a valid
draft (the expand step's scalar type assertion fails, e.g. the `value`
attribute's stored representation does not match the `int32` the engine
extracts), Create surfaces that validation failure immediately, leaves the
model untouched, and performs no object-store call at all. -/
theorem priorityClass_create_invalid_model_no_store_calls
    (createResp : Except StoreErr PriorityClass)
    (pollResp : Nat → Except StoreErr PriorityClass) (fuel : Nat)
    (readResp : Except StoreErr PriorityClass) (d : FlatModel) (e : Err)
    (h : expandPriorityClass d = .error e) :
    resourceKubernetesPriorityClassCreate createResp pollResp fuel readResp d =
      (.error e, d, []) ∧ ∃ s, e = Err.typeAssertion s := by
  constructor
  · simp only [resourceKubernetesPriorityClassCreate]
    rw [h]
  · exact expandPriorityClass_error h

/-- Claim C3, witness: on the spec's example model — whose `value` is stored
as a Go `int`, as the schema layer does for `TypeInt`, while the engine
asserts `int32` — Create fails with the conversion error and an empty store
trace. -/
theorem priorityClass_create_invalid_model_witness :
    resourceKubernetesPriorityClassCreate (.ok pcHigh) (fun _ => .ok pcHigh) 60
        (.ok pcHigh) mHigh =
      (.error (.typeAssertion "int32"), mHigh, []) ∧
    ∃ s, Err.typeAssertion "int32" = Err.typeAssertion s :=
  priorityClass_create_invalid_model_no_store_calls (.ok pcHigh)
    (fun _ => .ok pcHigh) 60 (.ok pcHigh) mHigh (.typeAssertion "int32") rfl

/-- The string assertion fails on every non-string dynamic value. -/
theorem asString_of_not_string {v : DVal} (hs : v.isString = false) :
    asString v = .error (.typeAssertion "string") := by
  cases v <;> first
    | rfl
    | simp [DVal.isString] at hs

/-- Claim C4, counterexample: with only `global_default` changed (a boolean,
as the schema stores it), Update does not continue with the mismatch
dropped — it fails at once with the string interface-conversion error,
before building a patch document or making any store call. -/
theorem priorityClass_update_global_default_silent_drop_counterexample :
    resourceKubernetesPriorityClassUpdate (.ok pcHigh) (.ok pcHigh) mHigh
        { mHigh with global_default := DVal.vBool true } =
      (.error (.typeAssertion "string"),
        { mHigh with global_default := DVal.vBool true }, []) := by
  rfl

/-- Claim C4, amended: when `global_default` has changed, the update path
converts it with a string type assertion where a boolean was expected; since
the stored value is not a string, the mismatch is not silently dropped —
Update aborts with a type-conversion failure, with no store call made. -/
theorem priorityClass_update_global_default_mismatch_fails
    (patchResp readResp : Except StoreErr PriorityClass) (old d : FlatModel)
    (hc : old.global_default ≠ d.global_default)
    (hs : d.global_default.isString = false) :
    ∃ s, resourceKubernetesPriorityClassUpdate patchResp readResp old d =
      (.error (.typeAssertion s), d, []) := by
  have hbuild : ∃ e, buildPriorityClassPatchOps old d = .error e := by
    rw [buildPriorityClassPatchOps]
    cases hv : valueOps old d with
    | error ev => exact ⟨ev, rfl⟩
    | ok vo =>
      cases hd2 : descriptionOps old d with
      | error ed => exact ⟨ed, rfl⟩
      | ok dops =>
        refine ⟨.typeAssertion "string", ?_⟩
        rw [globalDefaultOps, if_neg hc, asString_of_not_string hs]
  rcases hbuild with ⟨e, he⟩
  rcases buildPriorityClassPatchOps_error he with ⟨s, rfl⟩
  refine ⟨s, ?_⟩
  simp only [resourceKubernetesPriorityClassUpdate]
  rw [he]

/-- Claim C4, witness for the amended theorem: flipping the boolean
`global_default` of the example model makes Update fail with a
type-conversion error and an empty store trace. -/
theorem priorityClass_update_global_default_mismatch_witness :
    ∃ s, resourceKubernetesPriorityClassUpdate (.ok pcHigh) (.ok pcHigh) mHigh
        { mHigh with global_default := DVal.vBool true } =
      (.error (.typeAssertion s),
        { mHigh with global_default := DVal.vBool true }, []) :=
  priorityClass_update_global_default_mismatch_fails (.ok pcHigh) (.ok pcHigh)
    mHigh { mHigh with global_default := DVal.vBool true } (by decide) (by decide)

/-- Claim C5 (code bug): on the spec's own end-to-end model the round trip
`flatten (expand m) m = m` never takes place — the expand step of Create
fails on the `.(int32)` assertion (the schema layer stores `TypeInt`
attributes as `int`), so Create aborts with the conversion error before any
store call, and no expanded object ever reaches flatten. -/
theorem priorityClass_roundtrip_blocked_by_int32_assertion :
    expandPriorityClass mHigh = .error (.typeAssertion "int32") ∧
    resourceKubernetesPriorityClassCreate (.ok pcHigh) (fun _ => .ok pcHigh) 60
        (.ok pcHigh) mHigh =
      (.error (.typeAssertion "int32"), mHigh, []) := by
  constructor <;> rfl

/-- Claim C6 (code bug): updating only `value` from 1000000 to 900000 does
not yield a patch document with one replace operation at `/value` — the
`.(int32)` assertion of the update path fails on the `int`-represented
attribute, so Update aborts with the conversion error, builds no patch
document, and makes no store call. -/
theorem priorityClass_update_value_only_blocked_by_int32_assertion :
    buildPriorityClassPatchOps mHigh { mHigh with value := DVal.vInt 900000 } =
      .error (.typeAssertion "int32") ∧
    resourceKubernetesPriorityClassUpdate (.ok pcHigh) (.ok pcHigh) mHigh
        { mHigh with value := DVal.vInt 900000 } =
      (.error (.typeAssertion "int32"),
        { mHigh with value := DVal.vInt 900000 }, []) := by
  constructor <;> rfl

/-- Unfolding equation of the retry helper for a positive poll budget. -/
theorem retryLoop_succ (f : Nat → RetryOutcome) (fuel i : Nat) (last : Err) :
    retryLoop f (fuel + 1) i last =
      match f i with
      | .success => (.ok (), 1)
      | .nonRetryable e => (.error e, 1)
      | .retryable e =>
        let r := retryLoop f fuel (i + 1) e
        (r.1, r.2 + 1) := rfl

/-- The retry helper evaluates its callback at most `fuel` times. -/
theorem retryLoop_count_le (f : Nat → RetryOutcome) :
    ∀ (m i : Nat) (last : Err), (retryLoop f m i last).2 ≤ m := by
  intro m
  induction m with
  | zero => intro i last; simp [retryLoop]
  | succ m ih =>
    intro i last
    rw [retryLoop_succ]
    cases f i with
    | success => simp
    | nonRetryable e => simp
    | retryable e => simpa using Nat.succ_le_succ (ih (i + 1) e)

/-- A callback failing non-retryably on its first evaluation aborts the
retry helper at once, after exactly one evaluation. -/
theorem retryLoop_nonretryable (f : Nat → RetryOutcome) (m i : Nat)
    (last e : Err) (hf : f i = .nonRetryable e) :
    retryLoop f (m + 1) i last = (.error e, 1) := by
  rw [retryLoop_succ, hf]

/-- A retryable failure makes the retry helper try again at the next poll
index, recording the failed attempt. -/
theorem retryLoop_retry_step (f : Nat → RetryOutcome) (m i : Nat)
    (last e : Err) (hf : f i = .retryable e) :
    retryLoop f (m + 1) i last =
      ((retryLoop f m (i + 1) e).1, (retryLoop f m (i + 1) e).2 + 1) := by
  rw [retryLoop_succ, hf]

/-- A callback that is retryable at every index makes the retry helper end
in an error satisfying whatever property the retryable errors satisfy. -/
theorem retryLoop_all_retryable {P : Err → Prop} (f : Nat → RetryOutcome)
    (H : ∀ j, ∃ e, f j = .retryable e ∧ P e) :
    ∀ (n i : Nat) (last : Err),
      ∃ e, (retryLoop f (n + 1) i last).1 = .error e ∧ P e := by
  intro n
  induction n with
  | zero =>
    intro i last
    rcases H i with ⟨e, hf, hp⟩
    refine ⟨e, ?_, hp⟩
    rw [retryLoop_retry_step f 0 i last e hf]
    rfl
  | succ n ih =>
    intro i last
    rcases H i with ⟨e, hf, hp⟩
    rcases ih (i + 1) e with ⟨e2, he2, hp2⟩
    refine ⟨e2, ?_, hp2⟩
    rw [retryLoop_retry_step f (n + 1) i last e hf]
    exact he2

/-- A second remote object: the stale value the store echoes while the
create convergence poll has not caught up. -/
def pcLow : PriorityClass :=
  { objectMeta := { name := "low", generateName := "", labels := [],
                    annotations := [], resourceVersion := "2", uid := "u2" },
    description := "", globalDefault := false, value := 5 }

/-- The example flat model with its `value` attribute represented as a Go
`int32`, the only representation the expand step's assertion accepts. -/
def mHigh32 : FlatModel := { mHigh with value := .vInt32 1000000 }

/-- The draft the expand step builds from `mHigh32`. -/
def draftHigh : PriorityClass :=
  { objectMeta := { name := "high", generateName := "", labels := [],
                    annotations := [], resourceVersion := "", uid := "" },
    description := "", globalDefault := false, value := 1000000 }

/-- Claim C7, confirmed: in every Create execution whose expand step
succeeds and whose store Create succeeds, the Local ID of the resulting
flat model is the one derived from the store's response — set right after
the Create call and never touched again — whatever the convergence poll and
the final Read do, so a convergence failure still leaves the ID set. -/
theorem priorityClass_create_sets_id_before_polling
    (createResp : Except StoreErr PriorityClass)
    (pollResp : Nat → Except StoreErr PriorityClass) (fuel : Nat)
    (readResp : Except StoreErr PriorityClass) (d : FlatModel)
    (draft out : PriorityClass)
    (h1 : expandPriorityClass d = .ok draft)
    (h2 : createResp = .ok out) :
    ((resourceKubernetesPriorityClassCreate createResp pollResp fuel readResp d).2.1).id =
      buildId out.objectMeta := by
  subst h2
  simp only [resourceKubernetesPriorityClassCreate]
  rw [h1]
  rcases hr : (retryLoop (createPollOutcome pollResp draft.value) fuel 0 Err.timeout).1 with e | u
  · simp [hr]
  · simp [hr, read_preserves_id]

/-- Claim C7, witness: with a valid model, a successful store Create and a
poll that never converges (the store keeps echoing a stale value), Create
fails — yet the resulting flat model carries the Local ID derived from the
Create response. -/
theorem priorityClass_create_sets_id_before_polling_witness :
    ((resourceKubernetesPriorityClassCreate (.ok pcHigh) (fun _ => .ok pcLow) 2
        (.ok pcHigh) mHigh32).2.1).id = buildId pcHigh.objectMeta :=
  priorityClass_create_sets_id_before_polling (.ok pcHigh) (fun _ => .ok pcLow)
    2 (.ok pcHigh) mHigh32 draftHigh pcHigh rfl rfl

/-- Claim C8, confirmed: the convergence poll of Create is bounded — with a
predicate that never becomes true it ends in a convergence error after at
most the poll budget plus the final attempt, it never evaluates the callback
more often than the budget, a hard store error on a poll aborts immediately
after that single attempt, and a failed predicate check is retried at the
next poll index. -/
theorem priorityClass_convergence_poll_bounded
    (reads : Nat → Except StoreErr PriorityClass) (v : Int)
    (n m i : Nat) (last : Err) :
    ((∀ j, ∃ pc, reads j = .ok pc ∧ pc.value ≠ v) →
        ∃ a b, (retryLoop (createPollOutcome reads v) (n + 1) i last).1 =
          .error (.convergence a b)) ∧
    (retryLoop (createPollOutcome reads v) m i last).2 ≤ m ∧
    (∀ e, reads i = .error e →
        retryLoop (createPollOutcome reads v) (m + 1) i last =
          (.error (.storeErr e), 1)) ∧
    (∀ pc, reads i = .ok pc → pc.value ≠ v →
        retryLoop (createPollOutcome reads v) (m + 1) i last =
          ((retryLoop (createPollOutcome reads v) m (i + 1)
              (.convergence pc.value v)).1,
            (retryLoop (createPollOutcome reads v) m (i + 1)
              (.convergence pc.value v)).2 + 1)) := by
  refine ⟨?_, retryLoop_count_le _ m i last, ?_, ?_⟩
  · intro H
    have H2 : ∀ j, ∃ e, createPollOutcome reads v j = .retryable e ∧
        ∃ a b, e = Err.convergence a b := by
      intro j
      rcases H j with ⟨pc, hr, hv⟩
      exact ⟨.convergence pc.value v, by simp [createPollOutcome, hr, hv],
        pc.value, v, rfl⟩
    rcases retryLoop_all_retryable _ H2 n i last with ⟨e, he, a, b, rfl⟩
    exact ⟨a, b, he⟩
  · intro e he
    exact retryLoop_nonretryable _ m i last _ (by simp [createPollOutcome, he])
  · intro pc hr hv
    exact retryLoop_retry_step _ m i last _ (by simp [createPollOutcome, hr, hv])

/-- Claim C8, witness: with the store stuck echoing value 5 against a
submitted 7 the poll ends in a convergence error within the budget, its
attempt count is bounded, a store outage aborts after one attempt, and a
mismatch at index 0 is retried at index 1. -/
theorem priorityClass_convergence_poll_bounded_witness :
    (∃ a b, (retryLoop (createPollOutcome (fun _ => .ok pcLow) 7) 3 0
        Err.timeout).1 = .error (.convergence a b)) ∧
    (retryLoop (createPollOutcome (fun _ => .ok pcLow) 7) 2 0 Err.timeout).2 ≤ 2 ∧
    retryLoop (createPollOutcome (fun _ => .error (.other "down")) 7) 3 0
        Err.timeout = (.error (.storeErr (.other "down")), 1) ∧
    retryLoop (createPollOutcome (fun _ => .ok pcLow) 7) 3 0 Err.timeout =
      ((retryLoop (createPollOutcome (fun _ => .ok pcLow) 7) 2 1
          (.convergence 5 7)).1,
        (retryLoop (createPollOutcome (fun _ => .ok pcLow) 7) 2 1
          (.convergence 5 7)).2 + 1) :=
  ⟨(priorityClass_convergence_poll_bounded (fun _ => .ok pcLow) 7 2 2 0
      Err.timeout).1 (fun _ => ⟨pcLow, rfl, by decide⟩),
   (priorityClass_convergence_poll_bounded (fun _ => .ok pcLow) 7 2 2 0
      Err.timeout).2.1,
   (priorityClass_convergence_poll_bounded (fun _ => .error (.other "down")) 7
      2 2 0 Err.timeout).2.2.1 (.other "down") rfl,
   (priorityClass_convergence_poll_bounded (fun _ => .ok pcLow) 7 2 2 0
      Err.timeout).2.2.2 pcLow rfl (by decide)⟩

/-- Claim C9, confirmed: when the store's Get reports an empty
generate-name while the prior flat model holds a non-empty configured one,
Read re-injects the prior value into the object before flattening, so the
updated flat model still carries the configured generate-name (no spurious
drift on that field) and the Read succeeds. -/
theorem priorityClass_read_reinjects_generate_name
    (getResp : Except StoreErr PriorityClass) (d : FlatModel)
    (pc : PriorityClass) (h1 : getResp = .ok pc)
    (h2 : pc.objectMeta.generateName = "")
    (h3 : d.metadata.generateName ≠ "") :
    (((resourceKubernetesPriorityClassRead getResp d).2.1).metadata).generateName =
      d.metadata.generateName ∧
    (resourceKubernetesPriorityClassRead getResp d).1 = .ok () := by
  subst h1
  constructor <;>
    simp [resourceKubernetesPriorityClassRead, getOkGenerateName, h2, h3,
      flattenMetadata]

/-- A flat model whose metadata carries a configured generate-name. -/
def mGen : FlatModel :=
  { mHigh with metadata := { mdHigh with generateName := "gen-" } }

/-- Claim C9, witness: the store omits the generate-name of `mGen`; Read
keeps the configured value in the flat model and succeeds. -/
theorem priorityClass_read_reinjects_generate_name_witness :
    (((resourceKubernetesPriorityClassRead (.ok pcHigh) mGen).2.1).metadata).generateName =
      mGen.metadata.generateName ∧
    (resourceKubernetesPriorityClassRead (.ok pcHigh) mGen).1 = .ok () :=
  priorityClass_read_reinjects_generate_name (.ok pcHigh) mGen pcHigh rfl rfl
    (by decide)

/-- Claim C10, confirmed: Exists maps a successful Get to `(true, nil)`, a
Get failing with a 404 status error to `(false, nil)`, and any other Get
error to the pair of `true` (not `false`) and that error. -/
theorem priorityClass_exists_error_mapping
    (getResp : Except StoreErr PriorityClass) (d : FlatModel) :
    (∀ pc, getResp = .ok pc →
        resourceKubernetesPriorityClassExists getResp d =
          ((true, none), [StoreCall.getCall d.id])) ∧
    (getResp = .error (.statusError 404) →
        resourceKubernetesPriorityClassExists getResp d =
          ((false, none), [StoreCall.getCall d.id])) ∧
    (∀ e, getResp = .error e → isNotFound e = false →
        resourceKubernetesPriorityClassExists getResp d =
          ((true, some e), [StoreCall.getCall d.id])) := by
  refine ⟨?_, ?_, ?_⟩
  · rintro pc rfl; rfl
  · rintro rfl; rfl
  · rintro e rfl hnf
    simp [resourceKubernetesPriorityClassExists, hnf]

/-- Claim C10, witness: the three Exists outcomes at concrete inputs — a
successful Get, a 404 status error, and a 500 status error. -/
theorem priorityClass_exists_error_mapping_witness :
    resourceKubernetesPriorityClassExists (.ok pcHigh) mHigh =
      ((true, none), [StoreCall.getCall "high"]) ∧
    resourceKubernetesPriorityClassExists (.error (.statusError 404)) mHigh =
      ((false, none), [StoreCall.getCall "high"]) ∧
    resourceKubernetesPriorityClassExists (.error (.statusError 500)) mHigh =
      ((true, some (.statusError 500)), [StoreCall.getCall "high"]) :=
  ⟨(priorityClass_exists_error_mapping (.ok pcHigh) mHigh).1 pcHigh rfl,
   (priorityClass_exists_error_mapping (.error (.statusError 404)) mHigh).2.1 rfl,
   (priorityClass_exists_error_mapping (.error (.statusError 500)) mHigh).2.2
     (.statusError 500) rfl (by decide)⟩
